import Mathlib

/-!
# BarbellCalc — shallow embedding of the plate-loading core (src/App.jsx)

This file embeds the computational core of the BarbellCalc application:

* `convertWeight` — the unit converter (App.jsx lines 129-134);
* `roundToDecimal` — the decimal rounding helper (lines 136-138);
* the forward resolver — the resolution effect of `CalculatorPage`
  (lines 290-345), embedded as `resolvePlatesS` (returning both the
  `Result` and the post-call state of the `plates` array, because the
  JavaScript code sorts that array in place at line 324) and its
  result projection `resolvePlates`;
* the reverse accumulator — the total-weight effect of
  `ReverseCalculatorPage` (lines 431-437), embedded as
  `reverseTotalInLbs`.

JavaScript numbers are modelled as rationals (`ℚ`); `Math.floor` is
`jsFloor` (the rational floor), and `Math.round` is `jsFloor (· + 1/2)`
(JavaScript rounds halves toward +∞).  `Array.prototype.sort` with the comparator
`(a, b) => b.weight - a.weight` is a stable sort by non-increasing
weight; since a stable sort under a consistent comparator is uniquely
determined by the input, it is modelled by Mathlib's stable
`List.insertionSort` under the relation `plateGe`.
-/

namespace BarbellCalc

/-- A plate type as stored in the inventory: `{ id, weight, quantity, color }`
(App.jsx lines 10-16 and the plate form, lines 554-570). -/
structure Plate where
  id : String
  weight : ℚ
  quantity : ℕ
  color : String
  deriving Repr, DecidableEq

/-- A bar type as stored in the inventory: `{ id, name, weight }`
(App.jsx lines 18-23; the `unit` field is a constant `'lbs'` tag). -/
structure Bar where
  id : String
  name : String
  weight : ℚ
  deriving Repr, DecidableEq

/-- `const lbsToKg = 0.453592` (App.jsx line 130). -/
def lbsToKg : ℚ := 453592 / 1000000

/-- `convertWeight(weight, unit, baseUnit = 'lbs')` (App.jsx lines 129-134). -/
def convertWeight (weight : ℚ) (unit : String) (baseUnit : String := "lbs") : ℚ :=
  if unit = "kg" ∧ baseUnit = "lbs" then weight * lbsToKg
  else if unit = "lbs" ∧ baseUnit = "kg" then weight / lbsToKg
  else weight

/-- `Math.floor`, on rationals.  (`Rat.floor` is the executable floor;
`ratFloor_eq_floor` below identifies it with Mathlib's `⌊·⌋`.) -/
def jsFloor (q : ℚ) : ℤ := q.floor

/-- `Math.abs`, on rationals. -/
def jsAbs (q : ℚ) : ℚ := if q < 0 then -q else q

/-- `Math.round`, on rationals: JavaScript rounds halves toward `+∞`,
so `Math.round(x) = Math.floor(x + 0.5)`. -/
def jsRound (q : ℚ) : ℤ := jsFloor (q + 1 / 2)

/-- `roundToDecimal(value, decimals)` (App.jsx lines 136-138).  The
string-exponent trick `Math.round(value + 'e' + d) + 'e-' + d` is
decimal-scaled rounding: round `value * 10^d` to the nearest integer
(halves toward +∞), then divide by `10^d`. -/
def roundToDecimal (value : ℚ) (decimals : ℕ) : ℚ :=
  (jsRound (value * 10 ^ decimals) : ℚ) / 10 ^ decimals

/-- The comparator `(a, b) => b.weight - a.weight` (App.jsx line 324)
orders plates by non-increasing weight: `a` may precede `b` iff
`b.weight ≤ a.weight`. -/
def plateGe (a b : Plate) : Prop := b.weight ≤ a.weight

instance : DecidableRel plateGe := fun a b => inferInstanceAs (Decidable (b.weight ≤ a.weight))

instance : IsTotal Plate plateGe := ⟨fun a b => le_total b.weight a.weight⟩

instance : IsTrans Plate plateGe := ⟨fun _ _ _ h1 h2 => le_trans h2 h1⟩

/-- `plates.sort((a, b) => b.weight - a.weight)` (App.jsx line 324): the
stable descending-by-weight sort of the plates array. -/
def sortPlatesDesc (plates : List Plate) : List Plate :=
  plates.insertionSort plateGe

/-- `numSides = calculationType === 'two-sided' ? 2 : 1` (App.jsx line 315). -/
def numSides (calculationType : String) : ℕ :=
  if calculationType = "two-sided" then 2 else 1

/-- `Math.floor(roundToDecimal(weightPerSideInLbs / plate.weight, 3) + 1e-9)`
(App.jsx line 329). -/
def platesNeededFor (remaining weight : ℚ) : ℤ :=
  jsFloor (roundToDecimal (remaining / weight) 3 + 1 / 1000000000)

/-- The greedy selection loop (App.jsx lines 326-333): traverse the sorted
plate list, skip non-positive weights, cap the needed count by
`Math.floor(plate.quantity / numSides)`, push that many references, and
subtract the used weight from the per-side remainder, re-rounded to three
decimals.  Returns the per-side loadout together with the final remainder. -/
def loadPlates : List Plate → ℚ → ℕ → List Plate × ℚ
  | [], remaining, _ => ([], remaining)
  | plate :: rest, remaining, n =>
    if plate.weight ≤ 0 then loadPlates rest remaining n
    else
      let platesNeeded : ℤ := platesNeededFor remaining plate.weight
      let platesToUse : ℤ := min platesNeeded ((plate.quantity / n : ℕ) : ℤ)
      let remaining' := roundToDecimal (remaining - platesToUse * plate.weight) 3
      let next := loadPlates rest remaining' n
      (List.replicate platesToUse.toNat plate ++ next.1, next.2)

/-- The status classification of a resolution, one constructor per
user-facing message of the `CalculatorPage` effect; each carries the
numeric payload that the corresponding message interpolates
(already converted to the display unit). -/
inductive Status where
  /-- `'Please select a bar.'` (App.jsx line 297). -/
  | needsBarSelection
  /-- `'Enter a valid target weight.'` (line 304). -/
  | invalidTarget
  /-- `` `Weight must be at least the bar weight (X unit).` `` (line 311). -/
  | belowBarWeight (displayBarWeight : ℚ)
  /-- `` `Just the bar (X unit).` `` (line 320). -/
  | barOnly (displayBarWeight : ℚ)
  /-- `` `Total: X unit` `` (line 343). -/
  | exactMatch (loadedWeight : ℚ)
  /-- `` `Closest is X unit.` `` (line 341). -/
  | closestApproximation (loadedWeight : ℚ)
  deriving Repr, DecidableEq

/-- The resolution result `{ plates, message }` (App.jsx line 281), with the
message abstracted to its `Status`. -/
structure Result where
  plates : List Plate
  status : Status
  deriving Repr, DecidableEq

/-- Target-weight input conversion (App.jsx lines 300-301):
`parseFloat` then, when the display unit is `'kg'`,
`convertWeight(targetInLbs, 'lbs', 'kg')`. -/
def targetInLbs (targetWeight : ℚ) (unit : String) : ℚ :=
  if unit = "kg" then convertWeight targetWeight "lbs" "kg" else targetWeight

/-- The forward resolver: the resolution effect of `CalculatorPage`
(App.jsx lines 300-344), for a given bar.  Returns the `Result` together
with the post-call state of the caller's `plates` array: the code reaches
`plates.sort(...)` (line 324) — an in-place sort — exactly on the greedy
path, so on that path the post-state is `sortPlatesDesc plates`, and on
every early return it is `plates` unchanged.  (`isNaN` has no rational
counterpart; a non-numeric target never reaches this function.) -/
def resolvePlatesS (targetWeight : ℚ) (bar : Bar) (calculationType : String)
    (plates : List Plate) (unit : String) : Result × List Plate :=
  let tLbs := targetInLbs targetWeight unit
  if tLbs < 0 then ({ plates := [], status := .invalidTarget }, plates)
  else
    let barWeightInLbs := bar.weight
    let displayBarWeight := convertWeight barWeightInLbs unit
    if tLbs < barWeightInLbs then
      ({ plates := [], status := .belowBarWeight displayBarWeight }, plates)
    else
      let weightToLoadInLbs := tLbs - barWeightInLbs
      let n := numSides calculationType
      let weightPerSideInLbs := weightToLoadInLbs / (n : ℚ)
      if jsAbs weightToLoadInLbs < 1 / 100 then
        ({ plates := [], status := .barOnly displayBarWeight }, plates)
      else
        let sorted := sortPlatesDesc plates
        let platesForSide := (loadPlates sorted weightPerSideInLbs n).1
        let loadedWeightInLbs :=
          (platesForSide.map Plate.weight).sum * (n : ℚ) + barWeightInLbs
        let loadedWeight := convertWeight loadedWeightInLbs unit
        if jsAbs (roundToDecimal loadedWeightInLbs 3 - roundToDecimal tLbs 3) > 1 / 100 then
          ({ plates := platesForSide, status := .closestApproximation loadedWeight }, sorted)
        else
          ({ plates := platesForSide, status := .exactMatch loadedWeight }, sorted)

/-- The forward resolver's result (the value stored by `setResult`). -/
def resolvePlates (targetWeight : ℚ) (bar : Bar) (calculationType : String)
    (plates : List Plate) (unit : String) : Result :=
  (resolvePlatesS targetWeight bar calculationType plates unit).1

/-- `numSides = sidedness === 'both-sides' ? 2 : 1` (App.jsx line 434). -/
def sidesCount (sidedness : String) : ℕ :=
  if sidedness = "both-sides" then 2 else 1

/-- The forward `calculationType` values map onto the reverse `sidedness`
values with the same multiplier: `'two-sided'` ↔ `'both-sides'`,
`'one-sided'` ↔ `'one-side'`. -/
def matchingSidedness (calculationType : String) : String :=
  if calculationType = "two-sided" then "both-sides" else "one-side"

/-- `bars.find(b => b.id === selectedBarId)?.weight || 0` (App.jsx
line 432): the selected bar's weight, or `0` when no bar matches; the
JavaScript `|| 0` also maps a found weight of `0` to `0`. -/
def reverseBarWeightInLbs (bars : List Bar) (selectedBarId : String) : ℚ :=
  match bars.find? (fun b => b.id == selectedBarId) with
  | some b => if b.weight = 0 then 0 else b.weight
  | none => 0

/-- The reverse accumulator: the total-weight effect of
`ReverseCalculatorPage` (App.jsx lines 431-436), before the final
display-unit conversion:
`totalWeightInLbs = barWeightInLbs + platesWeightPerSideInLbs * numSides`. -/
def reverseTotalInLbs (selectedPlates : List Plate) (bars : List Bar)
    (selectedBarId : String) (sidedness : String) : ℚ :=
  let barWeightInLbs := reverseBarWeightInLbs bars selectedBarId
  let platesWeightPerSideInLbs := (selectedPlates.map Plate.weight).sum
  barWeightInLbs + platesWeightPerSideInLbs * (sidesCount sidedness : ℚ)

/-- The achieved total that a resolution message reports, in the display
unit: the interpolated value of `` `Just the bar (X unit).` ``,
`` `Total: X unit` `` or `` `Closest is X unit.` `` (App.jsx lines 320,
341, 343; for `bar-only` the achieved total is the bar weight itself).
The other three messages report no achieved total. -/
def reportedTotalDisplay (r : Result) : Option ℚ :=
  match r.status with
  | .barOnly w => some w
  | .exactMatch w => some w
  | .closestApproximation w => some w
  | _ => none

/-! ### Concrete sample data

The inventory of spec scenarios 1 and 2 (weights 45, 25, 10, 5 and 2.5
with quantity 4 each), the standard 45-pound bar, and a pair of plates
used to exercise the in-place sort. -/

/-- A 45-pound plate, quantity 4. -/
def samplePlate45 : Plate := ⟨"plate-45", 45, 4, "#F97316"⟩

/-- A 25-pound plate, quantity 4. -/
def samplePlate25 : Plate := ⟨"plate-25", 25, 4, "#3B82F6"⟩

/-- A 10-pound plate, quantity 4. -/
def samplePlate10 : Plate := ⟨"plate-10", 10, 4, "#FBBF24"⟩

/-- A 5-pound plate, quantity 4. -/
def samplePlate5 : Plate := ⟨"plate-5", 5, 4, "#10B981"⟩

/-- A 2.5-pound plate, quantity 4. -/
def samplePlate2p5 : Plate := ⟨"plate-2.5", 5 / 2, 4, "#6B7280"⟩

/-- The inventory of spec scenarios 1 and 2, stored heaviest first. -/
def sampleInventory : List Plate :=
  [samplePlate45, samplePlate25, samplePlate10, samplePlate5, samplePlate2p5]

/-- The standard 45-pound bar. -/
def sampleBar : Bar := ⟨"bar-standard", "Standard Barbell", 45⟩

/-- The sentinel zero-weight bar (App.jsx line 22). -/
def noBar : Bar := ⟨"no-bar", "No Bar", 0⟩

/-!
## Theorems

The rational arithmetic operations of Batteries are sealed
(`@[irreducible]`); they are unsealed locally so that concrete runs of
the resolver evaluate under `decide`.
-/

section Proofs

attribute [local semireducible] Rat.mul Rat.add Rat.inv Rat.sub

/-- The forward `numSides` (App.jsx line 315) and the reverse `numSides`
(line 434) agree on matching sidedness values. -/
theorem sidesCount_matchingSidedness (m : String) :
    sidesCount (matchingSidedness m) = numSides m := by
  unfold sidesCount matchingSidedness numSides
  by_cases h : m = "two-sided" <;> simp [h]

/-- When a bar is found, `reverseBarWeightInLbs` is its weight (the
JavaScript `|| 0` collapses a zero weight to the same value `0`). -/
theorem reverseBarWeightInLbs_of_find (bars : List Bar) (barId : String) (bar : Bar)
    (h : bars.find? (fun b => b.id == barId) = some bar) :
    reverseBarWeightInLbs bars barId = bar.weight := by
  unfold reverseBarWeightInLbs
  rw [h]
  by_cases h0 : bar.weight = 0
  · simp [h0]
  · simp [h0]

/-- C9: `convertWeight` is total and is the identity outside the two
known conversions: for every value and every `(unit, baseUnit)` pair
other than `("kg", "lbs")` and `("lbs", "kg")` it returns its input
unchanged, and in particular `convertWeight v u u = v`. -/
theorem convertWeight_identity (v : ℚ) (u b : String) :
    (¬(u = "kg" ∧ b = "lbs") → ¬(u = "lbs" ∧ b = "kg") → convertWeight v u b = v) ∧
    convertWeight v u u = v := by
  constructor
  · intro h1 h2
    unfold convertWeight
    rw [if_neg h1, if_neg h2]
  · unfold convertWeight
    rw [if_neg, if_neg]
    · rintro ⟨h1, h2⟩
      rw [h1] at h2
      exact absurd h2 (by decide)
    · rintro ⟨h1, h2⟩
      rw [h1] at h2
      exact absurd h2 (by decide)

/-- Witness for C9 at the unknown unit `"stone"` and at `u = baseUnit = "kg"`. -/
theorem convertWeight_identity_witness :
    convertWeight 3 "stone" "lbs" = 3 ∧ convertWeight 3 "kg" "kg" = 3 :=
  ⟨(convertWeight_identity 3 "stone" "lbs").1 (by decide) (by decide),
   (convertWeight_identity 3 "kg" "kg").2⟩

/-- C6: for every per-side loadout, bar and sidedness, the reverse
accumulator computes `bar.weight + (sum of plate weights) × multiplier`,
where the multiplier (`sidesCount`) is 2 for `both-sides` and 1 for
`one-side`. -/
theorem reverse_total_formula (selectedPlates : List Plate) (bars : List Bar)
    (barId sidedness : String) (bar : Bar)
    (hfind : bars.find? (fun b => b.id == barId) = some bar) :
    reverseTotalInLbs selectedPlates bars barId sidedness =
      bar.weight + (selectedPlates.map Plate.weight).sum * (sidesCount sidedness : ℚ) := by
  unfold reverseTotalInLbs
  rw [reverseBarWeightInLbs_of_find bars barId bar hfind]

/-- Witness for C6: one 45-pound plate per side on the standard bar,
both sides loaded. -/
theorem reverse_total_formula_witness :
    reverseTotalInLbs [samplePlate45] [sampleBar] "bar-standard" "both-sides" =
      sampleBar.weight + ([samplePlate45].map Plate.weight).sum * (sidesCount "both-sides" : ℚ) :=
  reverse_total_formula [samplePlate45] [sampleBar] "bar-standard" "both-sides" sampleBar
    (by decide)

/-- C10: when the selected bar id matches no bar in the list (including
an empty list), the reverse accumulator degrades the bar weight to zero:
the total is the plate sum times the sidedness multiplier, and no error
is raised (the function is total). -/
theorem reverse_total_unknown_bar (selectedPlates : List Plate) (bars : List Bar)
    (barId sidedness : String)
    (hfind : bars.find? (fun b => b.id == barId) = none) :
    reverseTotalInLbs selectedPlates bars barId sidedness =
      (selectedPlates.map Plate.weight).sum * (sidesCount sidedness : ℚ) := by
  unfold reverseTotalInLbs reverseBarWeightInLbs
  rw [hfind]
  simp

/-- Witness for C10 at the empty bars list. -/
theorem reverse_total_unknown_bar_witness :
    reverseTotalInLbs [samplePlate25] [] "bar-standard" "one-side" =
      ([samplePlate25].map Plate.weight).sum * (sidesCount "one-side" : ℚ) :=
  reverse_total_unknown_bar [samplePlate25] [] "bar-standard" "one-side" rfl

/-- C4: spec scenario 2 — bar weight 45, inventory
`{45×4, 25×4, 10×4, 5×4, 2.5×4}`, target 140, two-sided: the resolver
returns the per-side loadout `[45, 2.5]` (one 45 then one 2.5) and the
exact-match status reporting the achieved total 140. -/
theorem scenario_target140 :
    resolvePlates 140 sampleBar "two-sided" sampleInventory "lbs" =
      { plates := [samplePlate45, samplePlate2p5], status := .exactMatch 140 } := by
  decide

/-- C3 is false of the code: `plates.sort(...)` (App.jsx line 324) runs
before the deep copy and reorders the caller's `plates` array in place.
On the ascending inventory `[5-pound plate, 10-pound plate]` the
post-call inventory is the descending `[10, 5]`, not the original
sequence. -/
theorem sort_mutates_plates :
    (resolvePlatesS 10 noBar "two-sided" [samplePlate5, samplePlate10] "lbs").2 =
      [samplePlate10, samplePlate5] ∧
    [samplePlate10, samplePlate5] ≠ [samplePlate5, samplePlate10] := by
  decide

/-- Every plate in a greedy loadout is drawn from the traversed list. -/
theorem mem_of_mem_loadPlates {x : Plate} :
    ∀ {l : List Plate} {r : ℚ} {n : ℕ}, x ∈ (loadPlates l r n).1 → x ∈ l := by
  intro l
  induction l with
  | nil => intro r n h; simp [loadPlates] at h
  | cons plate rest ih =>
    intro r n h
    by_cases hw : plate.weight ≤ 0
    · simp only [loadPlates, if_pos hw] at h
      exact List.mem_cons_of_mem _ (ih h)
    · simp only [loadPlates, if_neg hw, List.mem_append] at h
      rcases h with h | h
      · rw [List.eq_of_mem_replicate h]
        exact List.mem_cons_self plate rest
      · exact List.mem_cons_of_mem _ (ih h)

/-- The greedy loop preserves the descending order of its input list:
replicated references of one plate type tie, and later groups come from
later (no heavier) plate types. -/
theorem pairwise_loadPlates :
    ∀ {l : List Plate} {r : ℚ} {n : ℕ},
      l.Pairwise plateGe → ((loadPlates l r n).1).Pairwise plateGe := by
  intro l
  induction l with
  | nil => intro r n _; simp [loadPlates]
  | cons plate rest ih =>
    intro r n h
    rw [List.pairwise_cons] at h
    by_cases hw : plate.weight ≤ 0
    · simp only [loadPlates, if_pos hw]
      exact ih h.2
    · simp only [loadPlates, if_neg hw]
      refine List.pairwise_append.2 ⟨?_, ih h.2, ?_⟩
      · exact List.pairwise_replicate.2 (Or.inr (le_refl plate.weight))
      · intro a ha b hb
        rw [List.eq_of_mem_replicate ha]
        exact h.1 b (mem_of_mem_loadPlates hb)

/-- The sorted traversal list is descending by weight. -/
theorem sorted_sortPlatesDesc (l : List Plate) : (sortPlatesDesc l).Pairwise plateGe :=
  List.sorted_insertionSort plateGe l

/-- The resolver returns either an empty loadout (one of the terminal
branches) or the greedy loadout over the descending-sorted inventory. -/
theorem resolvePlates_plates_cases (t : ℚ) (bar : Bar) (mode : String)
    (inv : List Plate) (u : String) :
    (resolvePlates t bar mode inv u).plates = [] ∨
    (resolvePlates t bar mode inv u).plates =
      (loadPlates (sortPlatesDesc inv)
        ((targetInLbs t u - bar.weight) / (numSides mode : ℚ)) (numSides mode)).1 := by
  unfold resolvePlates resolvePlatesS
  dsimp only
  split_ifs
  · exact Or.inl rfl
  · exact Or.inl rfl
  · exact Or.inl rfl
  · exact Or.inr rfl
  · exact Or.inr rfl

/-- C5: for every `resolvePlates` call, the returned per-side loadout is
non-increasing in plate weight (`plateGe a b` is `b.weight ≤ a.weight`,
so pairwise `plateGe` makes every plate at least as heavy as each later
one, in particular the next one). -/
theorem loadout_sorted (t : ℚ) (bar : Bar) (mode : String) (inv : List Plate)
    (u : String) :
    ((resolvePlates t bar mode inv u).plates).Pairwise plateGe := by
  rcases resolvePlates_plates_cases t bar mode inv u with h | h
  · rw [h]
    exact List.Pairwise.nil
  · rw [h]
    exact pairwise_loadPlates (sorted_sortPlatesDesc inv)

/-- Per plate type, the greedy loop uses at most
`Math.floor(quantity / numSides)` references per occurrence of the type
in the traversed list: the pushed count is capped by
`min platesNeeded (quantity / n)` at each occurrence. -/
theorem count_loadPlates_le (p : Plate) :
    ∀ (l : List Plate) (r : ℚ) (n : ℕ),
      ((loadPlates l r n).1).count p ≤ l.count p * (p.quantity / n) := by
  intro l
  induction l with
  | nil => intro r n; simp [loadPlates]
  | cons plate rest ih =>
    intro r n
    by_cases hw : plate.weight ≤ 0
    · simp only [loadPlates, if_pos hw]
      refine (ih r n).trans (Nat.mul_le_mul_right _ ?_)
      rw [List.count_cons]
      exact Nat.le_add_right _ _
    · simp only [loadPlates, if_neg hw]
      rw [List.count_append, List.count_replicate, List.count_cons]
      by_cases hpq : plate = p
      · subst hpq
        simp only [beq_self_eq_true, if_true, if_pos rfl]
        have h1 : (min (platesNeededFor r plate.weight)
            ((plate.quantity / n : ℕ) : ℤ)).toNat ≤ plate.quantity / n := by
          generalize platesNeededFor r plate.weight = d
          generalize plate.quantity / n = c
          omega
        have h3 := ih (roundToDecimal (r -
          (min (platesNeededFor r plate.weight) ((plate.quantity / n : ℕ) : ℤ)) *
            plate.weight) 3) n
        rw [Nat.succ_mul]
        exact (Nat.add_le_add h1 h3).trans (Nat.le_of_eq (Nat.add_comm _ _))
      · have hbeq : (plate == p) = false := beq_eq_false_iff_ne.2 hpq
        simp only [hbeq, Bool.false_eq_true, if_false, Nat.zero_add, Nat.add_zero]
        exact ih _ n

/-- C2: for every `resolvePlates` call and every plate type of the
inventory, the number of references to that plate type in the returned
per-side loadout is at most `Math.floor(quantity / numSides)`, where
`numSides` is 2 in `two-sided` mode and 1 otherwise — so a plate type
with quantity 1 is never used in `two-sided` mode.  Plate types have
distinct identities (the app creates each with a fresh random id), which
the `Nodup` hypothesis reflects. -/
theorem inventory_respect (t : ℚ) (bar : Bar) (mode : String) (inv : List Plate)
    (u : String) (p : Plate) (hnd : inv.Nodup) (hp : p ∈ inv) :
    ((resolvePlates t bar mode inv u).plates).count p ≤ p.quantity / numSides mode := by
  rcases resolvePlates_plates_cases t bar mode inv u with h | h
  · rw [h]
    simp
  · rw [h]
    refine (count_loadPlates_le p (sortPlatesDesc inv)
      ((targetInLbs t u - bar.weight) / (numSides mode : ℚ)) (numSides mode)).trans ?_
    unfold sortPlatesDesc
    rw [(List.perm_insertionSort plateGe inv).count_eq p,
      List.count_eq_one_of_mem hnd hp, Nat.one_mul]

/-- Witness for C2 at spec scenario 2: at most `4 / 2 = 2` references of
the 45-pound plate appear per side. -/
theorem inventory_respect_witness :
    ((resolvePlates 140 sampleBar "two-sided" sampleInventory "lbs").plates).count
        samplePlate45 ≤ samplePlate45.quantity / numSides "two-sided" :=
  inventory_respect 140 sampleBar "two-sided" sampleInventory "lbs" samplePlate45
    (by decide) (by decide)

/-- Sorting an already-sorted plates array leaves it unchanged, so the
in-place sort is idempotent. -/
theorem sortPlatesDesc_idem (l : List Plate) :
    sortPlatesDesc (sortPlatesDesc l) = sortPlatesDesc l :=
  List.Sorted.insertionSort_eq (List.sorted_insertionSort plateGe l)

/-- A singleton bars list finds its own bar by id. -/
theorem find_self_singleton (bar : Bar) :
    ([bar].find? (fun b => b.id == bar.id)) = some bar := by
  simp [List.find?]

/-- On a singleton bars list holding the forward bar, the reverse
accumulator computes `(sum of loadout weights) × numSides + bar.weight`
when the sidedness matches the forward calculation type. -/
theorem reverseTotalInLbs_matching (bar : Bar) (mode : String) (ps : List Plate) :
    reverseTotalInLbs ps [bar] bar.id (matchingSidedness mode) =
      (ps.map Plate.weight).sum * (numSides mode : ℚ) + bar.weight := by
  unfold reverseTotalInLbs
  rw [reverseBarWeightInLbs_of_find [bar] bar.id bar (find_self_singleton bar),
    sidesCount_matchingSidedness]
  ring

/-- C1: round-trip consistency.  For every target at least the bar
weight (with a valid, non-negative bar weight), the achieved total that
the forward resolver reports — the payload of its `bar-only`,
`exact-match` or `closest-approximation` message — is exactly the
display conversion of the total the reverse accumulator computes over
the forward loadout with the same bar and the matching sidedness. -/
theorem roundtrip_achieved_total (t : ℚ) (bar : Bar) (mode : String)
    (inv : List Plate) (u : String)
    (hbar : 0 ≤ bar.weight) (ht : bar.weight ≤ targetInLbs t u) :
    reportedTotalDisplay (resolvePlates t bar mode inv u) =
      some (convertWeight
        (reverseTotalInLbs (resolvePlates t bar mode inv u).plates
          [bar] bar.id (matchingSidedness mode)) u) := by
  unfold resolvePlates resolvePlatesS
  dsimp only
  rw [if_neg (not_lt.2 (hbar.trans ht)), if_neg (not_lt.2 ht)]
  by_cases h2 : jsAbs (targetInLbs t u - bar.weight) < 1 / 100
  · rw [if_pos h2]
    dsimp only
    rw [reverseTotalInLbs_matching]
    simp [reportedTotalDisplay]
  · rw [if_neg h2]
    split
    · dsimp only
      rw [reverseTotalInLbs_matching]
      simp [reportedTotalDisplay]
    · dsimp only
      rw [reverseTotalInLbs_matching]
      simp [reportedTotalDisplay]

/-- Witness for C1 at spec scenario 2 (target 140 on the standard bar). -/
theorem roundtrip_achieved_total_witness :
    reportedTotalDisplay (resolvePlates 140 sampleBar "two-sided" sampleInventory "lbs") =
      some (convertWeight
        (reverseTotalInLbs
          (resolvePlates 140 sampleBar "two-sided" sampleInventory "lbs").plates
          [sampleBar] sampleBar.id (matchingSidedness "two-sided")) "lbs") :=
  roundtrip_achieved_total 140 sampleBar "two-sided" sampleInventory "lbs"
    (by decide) (by decide)

/-- C7: boundary classification.  A target exactly equal to the bar
weight resolves to `bar-only` with an empty loadout; a non-negative
target strictly below the bar weight (in particular one display-unit
step below) resolves to `below-bar-weight` with an empty loadout, and
in both cases the message payload is the bar weight converted to the
display unit. -/
theorem boundary_classification (bar : Bar) (inv : List Plate) (mode u : String)
    (t1 t2 : ℚ) (hbar : 0 ≤ bar.weight)
    (h1 : targetInLbs t1 u = bar.weight)
    (h2 : 0 ≤ targetInLbs t2 u) (h3 : targetInLbs t2 u < bar.weight) :
    resolvePlates t1 bar mode inv u =
      { plates := [], status := .barOnly (convertWeight bar.weight u) } ∧
    resolvePlates t2 bar mode inv u =
      { plates := [], status := .belowBarWeight (convertWeight bar.weight u) } := by
  constructor
  · unfold resolvePlates resolvePlatesS
    dsimp only
    rw [h1, if_neg (not_lt.2 hbar), if_neg (lt_irrefl bar.weight),
      if_pos (by rw [sub_self]; norm_num [jsAbs])]
  · unfold resolvePlates resolvePlatesS
    dsimp only
    rw [if_neg (not_lt.2 h2), if_pos h3]

/-- Witness for C7 at the standard 45-pound bar with targets 45 and 44. -/
theorem boundary_classification_witness :
    resolvePlates 45 sampleBar "two-sided" sampleInventory "lbs" =
      { plates := [], status := .barOnly (convertWeight sampleBar.weight "lbs") } ∧
    resolvePlates 44 sampleBar "two-sided" sampleInventory "lbs" =
      { plates := [], status := .belowBarWeight (convertWeight sampleBar.weight "lbs") } :=
  boundary_classification sampleBar sampleInventory "two-sided" "lbs" 45 44
    (by decide) (by decide) (by decide) (by decide)

/-- C8: determinism and idempotence.  `resolvePlatesS` is a pure
function, so identical inputs give identical results; the only state the
resolution effect writes besides its result is the in-place sort of the
`plates` array, and re-running the resolver on that post-call state
reproduces both the result and the state bit for bit — no hidden state
carried between invocations changes the result. -/
theorem resolvePlates_idempotent (t : ℚ) (bar : Bar) (mode : String)
    (inv : List Plate) (u : String) :
    resolvePlatesS t bar mode ((resolvePlatesS t bar mode inv u).2) u =
      resolvePlatesS t bar mode inv u := by
  unfold resolvePlatesS
  dsimp only
  by_cases h0 : targetInLbs t u < 0
  · simp only [if_pos h0]
  by_cases h1 : targetInLbs t u < bar.weight
  · simp only [if_neg h0, if_pos h1]
  by_cases h2 : jsAbs (targetInLbs t u - bar.weight) < 1 / 100
  · simp only [if_neg h0, if_neg h1, if_pos h2]
  · simp only [if_neg h0, if_neg h1, if_neg h2]
    simp only [apply_ite Prod.snd, ite_self]
    rw [sortPlatesDesc_idem]

end Proofs

end BarbellCalc
